import Mathlib

/-!
Verification of the Crypto Sentinel ingestion-to-notification pipeline.

Each Python function referenced by a claim is given a shallow embedding:
pure functions become Lean functions, stateful code becomes explicit state
passing, machine floats whose uses here are exact (sums of halves, direct
comparisons) become rationals, Python ints become Int or Nat, and fallible
code returns Option.  External collaborators (the chain RPC, the JSON
decoder, the regex engine, the clock) are passed in as explicit inputs or
oracle parameters, never baked into the definitions.

Source files embedded below:
- app/websocket_listener.py  (ERC20 probe, reconnect backoff, token handoff)
- app/gpt_analyzer.py        (response parsing, TTL cache, analyze flow)
- app/telegram_notifier.py   (notification queue and worker)
- app/dexscanner.py          (rate limiter)
- app/utils/validators.py    (suspicion score)
-/

namespace CryptoSentinel

/-! ## ERC20 interface probe (app/websocket_listener.py, `_is_erc20_token`) -/

/-- Value returned by one read-only ERC20 interface call, as inspected by
the Python isinstance checks: a string, an int, or some other object. -/
inductive EthValue where
  | vStr (s : String)
  | vInt (n : Int)
  | vOther
deriving DecidableEq

/-- Outcome of one `contract.functions.X().call()` invocation: a returned
value, a raised `ContractLogicError`, or any other raised exception
(decode failure, network error, ...). -/
inductive EthCall where
  | ok (v : EthValue)
  | logicError
  | otherError
deriving DecidableEq

/-- The four probe calls performed on a freshly deployed contract.
The Python code issues them sequentially and aborts on the first raised
exception; since any raised exception yields `False`, recording all four
outcomes is equivalent. -/
structure ContractProbe where
  name : EthCall
  symbol : EthCall
  decimals : EthCall
  totalSupply : EthCall
deriving DecidableEq

/-- Embedding of `EthereumWebSocketListener._is_erc20_token`
(app/websocket_listener.py lines 315-346): both the inner
`except ContractLogicError` handler and the outer generic handler return
`False`, and when all four calls return, the code requires
`isinstance(name, str) and len(name) > 0`, likewise for `symbol`,
`isinstance(decimals, int) and 0 <= decimals <= 18`, and
`isinstance(total_supply, int) and total_supply > 0`. -/
def is_erc20_token (p : ContractProbe) : Bool :=
  match p.name, p.symbol, p.decimals, p.totalSupply with
  | .ok (.vStr n), .ok (.vStr s), .ok (.vInt d), .ok (.vInt t) =>
      decide (0 < n.length) && decide (0 < s.length) &&
      decide (0 ≤ d) && decide (d ≤ 18) && decide (0 < t)
  | _, _, _, _ => false

/-- The all-calls-succeed example of the spec: decimals 18, total supply
10^21, name "Foo", symbol "FOO". -/
def probeFoo : ContractProbe :=
  { name := .ok (.vStr "Foo"), symbol := .ok (.vStr "FOO"),
    decimals := .ok (.vInt 18), totalSupply := .ok (.vInt (10 ^ 21)) }

/-- A probe identical to `probeFoo` except that the `totalSupply` call
raises a contract logic revert. -/
def probeRevert : ContractProbe :=
  { name := .ok (.vStr "Foo"), symbol := .ok (.vStr "FOO"),
    decimals := .ok (.vInt 18), totalSupply := .logicError }

/-! ## Reconnect backoff (app/websocket_listener.py, `start`, lines 67-85) -/

/-- One run of the reconnect loop of `EthereumWebSocketListener.start`
under consecutive connection failures.  Arguments: the configured base
delay and maximum attempt count, the current value of
`self.reconnect_attempts`, and how many consecutive failures of
`_connect_and_listen` remain to be simulated.  On each failure the code
checks `reconnect_attempts < max_reconnect_attempts`; if so it increments
the counter and sleeps `reconnect_delay * reconnect_attempts` seconds,
otherwise it breaks out of the loop (the Terminated state).  Returns the
list of backoff delays slept, in order, and whether the loop exited via
the attempt-exhaustion break. -/
def runBackoff (base maxAttempts : Nat) : Nat → Nat → List Nat × Bool
  | _, 0 => ([], false)
  | attempts, n + 1 =>
    if attempts < maxAttempts then
      let rest := runBackoff base maxAttempts (attempts + 1) n
      (base * (attempts + 1) :: rest.1, rest.2)
    else
      ([], true)

/-- Simulation of `start` from the initial counter value
`self.reconnect_attempts = 0` through `n` consecutive connect failures. -/
def simulateFailures (base maxAttempts n : Nat) : List Nat × Bool :=
  runBackoff base maxAttempts 0 n

/-! ## New-token handoff (app/websocket_listener.py, `_handle_new_erc20_token`,
lines 348-372) -/

/-- Detection sources (app/models.py, `TokenSource`). -/
inductive TokenSource where
  | ethereum_websocket | dexscreener | dextools | telegram | twitter | manual
deriving DecidableEq

/-- The fields of `TokenInfo` set by `_handle_new_erc20_token` when it
constructs the candidate it hands to the background analysis task. -/
structure TokenCandidate where
  contract_address : String
  source : TokenSource
  creation_block : Option Int
  creation_timestamp : ℚ
deriving DecidableEq

/-- Embedding of `EthereumWebSocketListener._handle_new_erc20_token`:
`token_exists` is the result of `await self.db.token_exists(contract_address)`;
when it is true the method returns early, otherwise it builds a `TokenInfo`
and spawns `_analyze_token_async` on it.  The returned value is the
candidate handed downstream, or `none` when nothing is emitted. -/
def handle_new_erc20_token (contract_address : String) (token_exists : Bool)
    (creation_block : Option Int) (now : ℚ) : Option TokenCandidate :=
  if token_exists then none
  else some { contract_address := contract_address, source := .ethereum_websocket,
              creation_block := creation_block, creation_timestamp := now }

/-! ## Notification queue (app/telegram_notifier.py) -/

/-- One entry of `self.message_queue`: `_queue_message` (lines 198-204)
stores the formatted message text, a priority tag and a timestamp. -/
structure QueuedMessage where
  message : String
  priority : String
  timestamp : ℚ
deriving DecidableEq

/-- Embedding of `TelegramNotifierService._queue_message`:
`asyncio.Queue.put` appends at the tail of an unbounded FIFO queue. -/
def queue_message (q : List QueuedMessage) (message priority : String) (now : ℚ) :
    List QueuedMessage :=
  q ++ [{ message := message, priority := priority, timestamp := now }]

/-- Embedding of `TelegramNotifierService.notify_new_token` (lines 56-70):
the only guard before enqueueing is the score threshold
`analysis_result.overall_score < settings.MIN_NOTIFICATION_SCORE`; the
method reads and writes no cooldown state and uses the contract address
only inside the formatted message text.  `formatted` is the result of
`_format_token_notification`. -/
def notify_new_token (q : List QueuedMessage)
    (overall_score min_notification_score : ℚ) (formatted : String) (now : ℚ) :
    List QueuedMessage :=
  if overall_score < min_notification_score then q
  else queue_message q formatted "normal" now

/-- Embedding of `TelegramNotifierService.notify_alert` (lines 72-79):
a "critical" alert is queued with priority tag "high", any other with
"normal". -/
def notify_alert (q : List QueuedMessage) (priority formatted : String) (now : ℚ) :
    List QueuedMessage :=
  queue_message q formatted (if priority = "critical" then "high" else "normal") now

/-- Embedding of `TelegramNotifierService.notify_system_status`
(lines 81-88): queued with priority tag "low". -/
def notify_system_status (q : List QueuedMessage) (formatted : String) (now : ℚ) :
    List QueuedMessage :=
  queue_message q formatted "low" now

/-- Embedding of the drain loop `_message_worker` (lines 206-228): each
iteration takes the next message from the FIFO queue with
`self.message_queue.get()` and sends it to all chats; the stored priority
tag is never read by the worker.  The result lists the queued messages in
the order the worker sends them. -/
def message_worker_order : List QueuedMessage → List QueuedMessage
  | [] => []
  | m :: rest => m :: message_worker_order rest

/-! ## Dexscreener rate limiter (app/dexscanner.py) -/

/-- The request sections of `_get_latest_pairs`, `get_token_data` and
`get_pair_data` are guarded by `async with self.rate_limiter` where
`self.rate_limiter = asyncio.Semaphore(5)` (line 31): the semaphore
admits a new entrant whenever fewer than five tasks are currently inside
the guarded section. -/
def rate_limiter_permits : Nat := 5

/-- Admission rule of `asyncio.Semaphore(rate_limiter_permits)`. -/
def rate_limiter_admits (in_flight : Nat) : Bool :=
  in_flight < rate_limiter_permits

/-- Embedding of `_respect_rate_limit` (lines 281-290) for one caller that
observed the shared `self.last_request_time` value `last` at loop time
`now`: if `now - last < interval` the caller sleeps
`interval - (now - last)` seconds and proceeds at `last + interval`
without re-reading the shared state, otherwise it proceeds immediately.
The returned time is both the value the caller then stores into
`self.last_request_time` and the moment its HTTP request is issued. -/
def respect_rate_limit (last now interval : ℚ) : ℚ :=
  if now - last < interval then now + (interval - (now - last)) else now

/-- Sequential use of the limiter: a call arriving at time `t` with stored
state `last` starts its request at `respect_rate_limit last t interval`
and stores that time for the next call.  Folds a list of arrival times
into the list of request start times. -/
def seq_request_starts (interval : ℚ) : ℚ → List ℚ → List ℚ
  | _, [] => []
  | last, t :: ts =>
    let s := respect_rate_limit last t interval
    s :: seq_request_starts interval s ts

/-! ## Suspicion score (app/utils/validators.py) -/

/-- Number of entries of `SUSPICIOUS_PATTERNS` /
`COMPILED_SUSPICIOUS_PATTERNS` in app/utils/validators.py (five keyword
groups, three unicode classes, two repetition patterns, two impersonation
groups, two number patterns, three buzzword groups). -/
def suspiciousPatternTotal : Nat := 17

/-- The Python regex engine abstracted as an oracle: `rx i text` states
whether compiled pattern number `i` finds a match in `text`. -/
def RegexOracle : Type := Nat → String → Bool

/-- The list of matched pattern indices built by the loop in
`detect_suspicious_patterns` (lines 128-146). -/
def matchedPatterns (rx : RegexOracle) (text : String) : List Nat :=
  (List.range suspiciousPatternTotal).filter fun i => rx i text

/-- Embedding of `detect_suspicious_patterns`: an empty text short-circuits
to `(False, [])`; otherwise returns whether any pattern matched together
with the matched patterns. -/
def detect_suspicious_patterns (rx : RegexOracle) (text : String) :
    Bool × List Nat :=
  if text.length = 0 then (false, [])
  else
    let ps := matchedPatterns rx text
    (decide (0 < ps.length), ps)

/-- Python `str.isupper`: at least one cased character and no lowercase
cased character (modelled on the alphabetic/lowercase character classes). -/
def pyIsUpper (s : String) : Bool :=
  (s.data.any fun c => c.isLower || c.isUpper) && (s.data.all fun c => !c.isLower)

/-- Embedding of `calculate_suspicion_score` (lines 148-200).  Every
penalty term of the Python code is an exact binary float (a multiple of
0.5), so rationals model the float arithmetic exactly.  The additive terms
follow the source line by line and the total is capped by
`min(score, 10.0)`. -/
def calculate_suspicion_score (rx : RegexOracle)
    (name symbol description : String) : ℚ :=
  let np := detect_suspicious_patterns rx name
  let s1 : ℚ := if np.1 then (np.2.length : ℚ) * (3 / 2) else 0
  let sp := detect_suspicious_patterns rx symbol
  let s2 : ℚ := if sp.1 then (sp.2.length : ℚ) * 2 else 0
  let dp := detect_suspicious_patterns rx description
  let s3 : ℚ := if description.length ≠ 0 ∧ dp.1 = true then (dp.2.length : ℚ) * 1 else 0
  let s4 : ℚ := if name.length < 3 ∨ 50 < name.length then 1 else 0
  let s5 : ℚ := if symbol.length < 2 ∨ 10 < symbol.length then 3 / 2 else 0
  let s6 : ℚ := if pyIsUpper name = true ∧ 5 < name.length then 1 / 2 else 0
  let s7 : ℚ := if symbol.data.any Char.isDigit then 1 else 0
  let s8 : ℚ := if symbol.data.any (fun c => !c.isAlphanum) then 3 / 2 else 0
  min (s1 + s2 + s3 + s4 + s5 + s6 + s7 + s8) 10

/-! ## AI response parsing (app/gpt_analyzer.py, `_parse_ai_response`,
lines 224-288) -/

/-- Investment recommendations (app/models.py, `Recommendation`): the
recognized enum values are "buy", "hold", "avoid", "research". -/
inductive Recommendation where
  | buy | hold | avoid | research
deriving DecidableEq

/-- A JSON value as produced by `json.loads`, abstracted to exactly what
`_parse_ai_response` and the pydantic `AIAnalysis` constructor inspect:
whether `float(v)` succeeds and with which value, whether `v` is a `str`,
and whether `v` is `None`.
`num q`: not a str, `float(v) = q` (JSON numbers and booleans);
`str s`: a str on which `float` raises (non-numeric text);
`numStr q s`: a numeric str, on which `float` succeeds with value `q`;
`null`: JSON null; `other`: anything else (arrays, objects), on which both
`float(v)` and `.upper()` raise. -/
inductive JVal where
  | num (q : ℚ)
  | str (s : String)
  | numStr (q : ℚ) (s : String)
  | null
  | other
deriving DecidableEq

/-- Python `float(v)`: the value when the conversion succeeds. -/
def JVal.toFloat : JVal → Option ℚ
  | .num q => some q
  | .numStr q _ => some q
  | _ => none

/-- Python `isinstance(v, str)` together with the string itself, as needed
by `v.upper()`. -/
def JVal.asStr : JVal → Option String
  | .str s => some s
  | .numStr _ s => some s
  | _ => none

/-- The decoded JSON object of a scoring response: `some` / `none` records
field presence (`field in data`, `data.get`).  The `risks` and
`opportunities` lists are kept abstract as already-validated string lists;
their pydantic validation is orthogonal to every claim below. -/
structure AIResponseData where
  score : Option JVal
  reasoning : Option JVal
  recommendation : Option JVal
  confidence : Option JVal
  risks : Option (List String)
  opportunities : Option (List String)
  virality_score : Option JVal
  liquidity_score : Option JVal
  technical_score : Option JVal
  community_score : Option JVal
deriving DecidableEq

/-- The fields of the pydantic `AIAnalysis` model (app/models.py lines
125-144) that `_parse_ai_response` fills in.  `reasoning` keeps the raw
JSON value: pydantic v1 coerces scalars to `str`, and no claim inspects
the rendered text. -/
structure AIAnalysisE where
  score : ℚ
  reasoning : JVal
  risks : List String
  opportunities : List String
  recommendation : Recommendation
  confidence : ℚ
  virality_score : Option ℚ
  liquidity_score : Option ℚ
  technical_score : Option ℚ
  community_score : Option ℚ
deriving DecidableEq

/-- ASCII lower-casing of one character, the effect of Python
`.upper().lower()` on the characters of enum-candidate strings. -/
def asciiLowerChar (c : Char) : Char :=
  if 'A' ≤ c ∧ c ≤ 'Z' then Char.ofNat (c.toNat + 32) else c

/-- ASCII lower-casing of a string (structural, over the character
list). -/
def asciiLower (s : String) : String :=
  { data := s.data.map asciiLowerChar }

/-- Python `Recommendation(recommendation_str.lower())` after
`recommendation_str = data["recommendation"].upper()` (lines 252-258): a
string naming an enum value up to ASCII case yields that value, and the
`ValueError` raised for any other string is caught and coerced to
RESEARCH. -/
def parseRecommendation (s : String) : Recommendation :=
  if asciiLower s = "buy" then .buy
  else if asciiLower s = "hold" then .hold
  else if asciiLower s = "avoid" then .avoid
  else if asciiLower s = "research" then .research
  else .research

/-- Pydantic validation of the required `reasoning : str` field: scalars
(str, numbers) are accepted and coerced, `None` and containers are
rejected with a `ValidationError`, which the generic except clause turns
into a rejected response. -/
def reasoningOk : JVal → Bool
  | .num _ => true
  | .str _ => true
  | .numStr _ _ => true
  | .null => false
  | .other => false

/-- Pydantic validation of an `Optional[float] = Field(ge=0, le=10)`
sub-score passed from `data.get(...)`: absent or `None` is accepted as
`None`; a float-convertible value is accepted when within `[0, 10]`;
anything else raises a `ValidationError` and rejects the response. -/
def subScoreOk : Option JVal → Bool
  | none => true
  | some .null => true
  | some v =>
    match v.toFloat with
    | some q => decide (0 ≤ q) && decide (q ≤ 10)
    | none => false

/-- The value stored for an optional sub-score field. -/
def subScoreVal : Option JVal → Option ℚ
  | none => none
  | some .null => none
  | some v => v.toFloat

/-- Embedding of `GPTAnalyzerService._parse_ai_response`.  The argument is
the JSON-decoded content of the collaborator response, with `none` when
`json.loads` raised `JSONDecodeError`.  The source checks, in order: the
presence of the four required fields, `0 <= float(score) <= 10`,
`0 <= float(confidence) <= 1`, then coerces the recommendation, then
constructs the pydantic `AIAnalysis`.  Every exception raised on the way
(`ValueError` from `float`, `AttributeError` from `.upper()` on a
non-string, pydantic `ValidationError`) is caught by one of the except
clauses, so every failure returns `none`. -/
def parse_ai_response (content : Option AIResponseData) : Option AIAnalysisE :=
  match content with
  | none => none
  | some d =>
    match d.score, d.reasoning, d.recommendation, d.confidence with
    | some sv, some rv, some recv, some cv =>
      match sv.toFloat with
      | none => none
      | some score =>
        if 0 ≤ score ∧ score ≤ 10 then
          match cv.toFloat with
          | none => none
          | some confidence =>
            if 0 ≤ confidence ∧ confidence ≤ 1 then
              match recv.asStr with
              | none => none
              | some recStr =>
                if reasoningOk rv && subScoreOk d.virality_score &&
                    subScoreOk d.liquidity_score && subScoreOk d.technical_score &&
                    subScoreOk d.community_score then
                  some { score := score, reasoning := rv,
                         risks := d.risks.getD [],
                         opportunities := d.opportunities.getD [],
                         recommendation := parseRecommendation recStr,
                         confidence := confidence,
                         virality_score := subScoreVal d.virality_score,
                         liquidity_score := subScoreVal d.liquidity_score,
                         technical_score := subScoreVal d.technical_score,
                         community_score := subScoreVal d.community_score }
                else none
            else none
        else none
    | _, _, _, _ => none

/-! ## Analysis cache and analyze flow (app/gpt_analyzer.py, lines 52-108
and 359-395) -/

/-- The analyzer cache `self._analysis_cache`: lower-cased address to
(analysis, insertion time), modelled as an association list with unique
keys. -/
def AnalysisCache : Type := List (String × AIAnalysisE × ℚ)

/-- Python dict lookup `cache_key in self._analysis_cache`. -/
def cacheFind : AnalysisCache → String → Option (AIAnalysisE × ℚ)
  | [], _ => none
  | e :: rest, key => if e.1 = key then some e.2 else cacheFind rest key

/-- Python `del self._analysis_cache[cache_key]`. -/
def cacheErase (c : AnalysisCache) (key : String) : AnalysisCache :=
  c.filter fun e => decide (e.1 ≠ key)

/-- Embedding of `_get_cached_analysis` (lines 359-373): a stored entry
within the TTL is returned; an expired entry is deleted on access and the
lookup misses.  Returns the lookup result and the possibly-updated
cache. -/
def get_cached_analysis (c : AnalysisCache) (ttl : ℚ) (addr : String) (now : ℚ) :
    Option AIAnalysisE × AnalysisCache :=
  let key := addr.toLower
  match cacheFind c key with
  | some (a, ts) =>
    if now - ts < ttl then (some a, c)
    else (none, cacheErase c key)
  | none => (none, c)

/-- Embedding of `_cache_analysis` (lines 375-382) together with the
`_cleanup_cache` sweep it triggers past 1000 entries (lines 384-395):
the entry is stored under the lower-cased address with the current time,
and an oversized cache drops every expired entry. -/
def cache_analysis (c : AnalysisCache) (addr : String) (a : AIAnalysisE)
    (now ttl : ℚ) : AnalysisCache :=
  let key := addr.toLower
  let c1 : AnalysisCache := (key, a, now) :: cacheErase c key
  if 1000 < c1.length then c1.filter fun e => decide (now - e.2.2 < ttl) else c1

/-- Analysis statuses (app/models.py, `AnalysisStatus`). -/
inductive AnalysisStatus where
  | pending | processing | completed | failed | skipped
deriving DecidableEq

/-- Outcome of one `analyze_token` call: the fields of the returned
`TokenAnalysis` the claims inspect, whether the OpenAI collaborator was
invoked, and the cache left behind. -/
structure AnalyzeOutcome where
  status : AnalysisStatus
  error_message : Option String
  ai_analysis : Option AIAnalysisE
  called_api : Bool
  cache : AnalysisCache

/-- Embedding of `GPTAnalyzerService.analyze_token` (lines 52-108) for one
call at time `now` on address `addr`.  `api_response` is the outcome
`_call_openai_api` would produce if invoked: `none` models its `return
None` on timeout, rate limit or API error (lines 182-222, where the
original diagnostic text is French), `some content` a returned body whose
JSON-decoded content is `content`.  A cache hit returns COMPLETED without
invoking the collaborator; a `None` API result or an unparsable response
yields FAILED with an error message and stores nothing; a parsed response
is cached and returned as COMPLETED. -/
def analyze_token (cache : AnalysisCache) (ttl : ℚ) (addr : String) (now : ℚ)
    (api_response : Option (Option AIResponseData)) : AnalyzeOutcome :=
  let hit := get_cached_analysis cache ttl addr now
  match hit.1 with
  | some a =>
    { status := .completed, error_message := none, ai_analysis := some a,
      called_api := false, cache := hit.2 }
  | none =>
    match api_response with
    | none =>
      { status := .failed, error_message := some "OpenAI API call failed",
        ai_analysis := none, called_api := true, cache := hit.2 }
    | some content =>
      match parse_ai_response content with
      | none =>
        { status := .failed, error_message := some "AI response parsing failed",
          ai_analysis := none, called_api := true, cache := hit.2 }
      | some a =>
        { status := .completed, error_message := none, ai_analysis := some a,
          called_api := true, cache := cache_analysis hit.2 addr a now ttl }

/-- The notification guard of `_analyze_token_async`
(app/websocket_listener.py lines 374-399): the alert is sent only when
`analysis.ai_score >= settings.MIN_NOTIFICATION_SCORE`.  For a failed
analysis `TokenAnalysis.ai_score` is `None` (app/models.py lines 210-213)
and the Python comparison raises `TypeError`, which the enclosing handler
catches and logs, so no alert is sent. -/
def listener_sends_alert (r : AnalyzeOutcome) (min_notification_score : ℚ) : Bool :=
  match r.ai_analysis with
  | none => false
  | some a => min_notification_score ≤ a.score

/-- A collaborator response whose recommendation string "MOON" names no
enum value, with a valid score 8 and confidence 1. -/
def goodResponseMoon : AIResponseData :=
  { score := some (.num 8), reasoning := some (.str "strong narrative"),
    recommendation := some (.str "MOON"), confidence := some (.num 1),
    risks := some ["low liquidity"], opportunities := none,
    virality_score := none, liquidity_score := none,
    technical_score := none, community_score := none }

/-- The analysis `_parse_ai_response` produces for `goodResponseMoon`:
accepted, with the recommendation coerced to research. -/
def goodResponseMoonParsed : AIAnalysisE :=
  { score := 8, reasoning := .str "strong narrative",
    risks := ["low liquidity"], opportunities := [],
    recommendation := .research, confidence := 1,
    virality_score := none, liquidity_score := none,
    technical_score := none, community_score := none }

/-! ## Theorems -/

/-- Helper: an if-then-else of two nonnegative rationals is nonnegative. -/
theorem ite_nonneg_q {c : Prop} [Decidable c] {a b : ℚ} (ha : 0 ≤ a)
    (hb : 0 ≤ b) : 0 ≤ if c then a else b := by
  split
  · exact ha
  · exact hb

/-- Claim C10: for every token name, symbol and optional description (and
every behavior of the regex engine), the suspicion score computed by
`calculate_suspicion_score` lies in the closed interval [0, 10]: the
additive penalty terms are all nonnegative and the total is capped at
10.0. -/
theorem c10_suspicion_score_range (rx : RegexOracle)
    (name symbol description : String) :
    0 ≤ calculate_suspicion_score rx name symbol description ∧
    calculate_suspicion_score rx name symbol description ≤ 10 := by
  constructor
  · simp only [calculate_suspicion_score]
    refine le_min ?_ (by norm_num)
    refine add_nonneg (add_nonneg (add_nonneg (add_nonneg (add_nonneg
      (add_nonneg (add_nonneg ?_ ?_) ?_) ?_) ?_) ?_) ?_) ?_ <;>
      exact ite_nonneg_q (by positivity) le_rfl
  · simp only [calculate_suspicion_score]
    exact min_le_right _ _

/-- Claim C7 counterexample: a freshly probed token whose address is
already stored in the persistence layer is not emitted downstream —
`_handle_new_erc20_token` returns early on `db.token_exists`, refuting the
claim that the candidate is emitted unconditionally with no
prior-existence check in the listener. -/
theorem c7_counterexample :
    handle_new_erc20_token "0x1234567890123456789012345678901234567890"
      true none 0 = none := by
  rfl

/-- Claim C7 as amended: the listener itself checks the persistence layer
for prior existence of the address, and the candidate is handed off
exactly when that check reports the address absent. -/
theorem c7_handoff_checks_existence (addr : String) (token_exists : Bool)
    (blk : Option Int) (now : ℚ) :
    (handle_new_erc20_token addr token_exists blk now).isSome = !token_exists := by
  cases token_exists <;> simp [handle_new_erc20_token]

/-- Claim C8 counterexample: with a low-priority status message queued
before a critical ("high" tag) alert, the single worker sends the
low-priority message first while the high-priority one is still pending —
the queue is drained in FIFO order, refuting priority-ordered dispatch. -/
theorem c8_counterexample :
    (message_worker_order
        (notify_alert (notify_system_status [] "status report" 0)
          "critical" "node down" 0)).map QueuedMessage.priority
      = ["low", "high"] := by
  rfl

/-- Claim C8 as amended: the worker dispatches queued messages strictly in
FIFO arrival order; the priority tag is recorded on each entry but never
consulted, so it has no effect on dispatch order. -/
theorem c8_worker_fifo (q : List QueuedMessage) : message_worker_order q = q := by
  induction q with
  | nil => rfl
  | cons m rest ih => simp [message_worker_order, ih]

/-- Claim C1, evaluation of the code at the failing input: two qualifying
score results (overall score 8 with threshold 7) for the same contract
address 300 seconds apart — well within the 30-minute
NOTIFICATION_COOLDOWN_MINUTES window — are both enqueued by
`notify_new_token`; no cooldown map exists in the notifier, so the second
alert is not suppressed and two notifications are dispatched. -/
theorem c1_no_cooldown_two_alerts :
    notify_new_token (notify_new_token [] 8 7 "alert for token 0xAAAA" 0) 8 7
        "alert for token 0xAAAA" 300
      = [{ message := "alert for token 0xAAAA", priority := "normal", timestamp := 0 },
         { message := "alert for token 0xAAAA", priority := "normal", timestamp := 300 }] := by
  norm_num [notify_new_token, queue_message]

/-- Helper: whatever the arrival time, a request never starts earlier than
one full interval after the last stored request time. -/
theorem respect_rate_limit_ge (last now interval : ℚ) :
    last + interval ≤ respect_rate_limit last now interval := by
  unfold respect_rate_limit
  split
  · exact le_of_eq (by ring)
  · next h => linarith [not_lt.mp h]

/-- Helper: sequential calls through the limiter issue one request per
arrival and consecutive request starts are separated by at least the
interval. -/
theorem seq_request_starts_spec (interval : ℚ) :
    ∀ (ts : List ℚ) (last : ℚ),
      (seq_request_starts interval last ts).length = ts.length ∧
      List.Chain (fun a b => a + interval ≤ b) last
        (seq_request_starts interval last ts) := by
  intro ts
  induction ts with
  | nil => exact fun last => ⟨rfl, List.Chain.nil⟩
  | cons t ts ih =>
    intro last
    refine ⟨?_, ?_⟩
    · simp [seq_request_starts, (ih _).1]
    · exact List.Chain.cons (respect_rate_limit_ge last t interval) (ih _).2

/-- Claim C9 counterexample: the guard around the request sections is
`asyncio.Semaphore(5)`, which admits a second (and third) task into the
section while a request is already in flight.  Concrete cooperative
schedule: tasks A, B, C all reach the section at loop time 100 with one
second interval and initial `last_request_time = 0`; the semaphore admits
all three (1 < 5 and 2 < 5).  A observes (last 0, now 100), issues its
request at 100 and awaits its HTTP response, completing at 102.  B and C
both observe (last 100, now 100) before either sleeps, so both compute a
one-second sleep and both issue their requests at 101 — two requests
starting simultaneously (separation 0, below the one-second minimum) and
three requests in flight concurrently (101 < 102), refuting both the
minimum-separation and the never-concurrent parts of the claim. -/
theorem c9_counterexample :
    rate_limiter_admits 1 = true ∧ rate_limiter_admits 2 = true ∧
    respect_rate_limit 0 100 1 = 100 ∧
    respect_rate_limit 100 100 1 = 101 ∧
    (101 : ℚ) < 100 + 2 := by
  refine ⟨by decide, by decide, ?_, ?_, by norm_num⟩
  · norm_num [respect_rate_limit]
  · norm_num [respect_rate_limit]

/-- Claim C9 as amended: a request arriving before the interval has
elapsed is delayed (to exactly one interval after the previous stored
request time), never dropped — sequentially, every arrival yields exactly
one request and consecutive request starts are at least
`min_request_interval` apart.  Concurrency, however, is bounded by the
five-permit semaphore, not excluded (see the counterexample). -/
theorem c9_rate_limit_sequential (interval last : ℚ) (ts : List ℚ) :
    (seq_request_starts interval last ts).length = ts.length ∧
    List.Chain (fun a b => a + interval ≤ b) last
      (seq_request_starts interval last ts) ∧
    (∀ t : ℚ, t - last < interval →
      respect_rate_limit last t interval = last + interval) := by
  refine ⟨(seq_request_starts_spec interval ts last).1,
    (seq_request_starts_spec interval ts last).2, ?_⟩
  intro t ht
  unfold respect_rate_limit
  rw [if_pos ht]
  ring

/-- Claim C9 witness: the amended theorem applied at interval 1, initial
last time 0 and two arrivals, the second of which arrives half a second
early and is delayed to start exactly at the one-second mark. -/
theorem c9_rate_limit_sequential_witness :
    (seq_request_starts 1 0 [0, 1/2]).length = 2 ∧
    respect_rate_limit 0 (1/2) 1 = 0 + 1 := by
  have h := c9_rate_limit_sequential 1 0 [0, 1/2]
  exact ⟨h.1, h.2.2 (1/2) (by norm_num)⟩

/-- Helper: closed form of the reconnect loop under consecutive failures.
Starting from counter value `a`, `n` consecutive failures sleep the delays
`base * (a + 1), ..., base * (a + k)` with `k = min n (maxAttempts - a)`,
and the loop breaks to Terminated exactly when the failures outlast the
remaining attempts. -/
theorem runBackoff_eq (base maxA : Nat) :
    ∀ (n a : Nat),
      runBackoff base maxA a n =
        (((List.range (min n (maxA - a))).map fun i => base * (a + i + 1)),
          decide (maxA - a < n)) := by
  intro n
  induction n with
  | zero => intro a; simp [runBackoff]
  | succ n ih =>
    intro a
    by_cases h : a < maxA
    · have hmin : min (n + 1) (maxA - a) = min n (maxA - (a + 1)) + 1 := by omega
      rw [runBackoff, if_pos h, ih (a + 1), hmin, List.range_succ_eq_map]
      refine Prod.ext ?_ ?_
      · simp only [List.map_cons, List.map_map]
        refine congrArg₂ _ (by ring) ?_
        refine congrArg₂ _ ?_ rfl
        funext i
        simp only [Function.comp_apply]
        exact congrArg (HMul.hMul base) (by omega)
      · simp only [decide_eq_decide]
        omega
    · have h0 : maxA - a = 0 := by omega
      rw [runBackoff, if_neg h]
      simp [h0]

/-- Claim C5: under `n` consecutive connect failures the listener performs
one backoff cycle per failure while attempts remain — exactly `n` cycles
when `n ≤ max_reconnect_attempts`, with the `k`-th delay equal to
`base_delay * k` (linear) and the delay list non-decreasing — and once the
failures exceed the maximum attempt count the loop breaks to the terminal
state having performed exactly `max_reconnect_attempts` cycles, never
more. -/
theorem c5_backoff_policy (base maxA n : Nat) :
    (n ≤ maxA →
      simulateFailures base maxA n
        = ((List.range n).map fun i => base * (i + 1), false)) ∧
    (maxA < n →
      simulateFailures base maxA n
        = ((List.range maxA).map fun i => base * (i + 1), true)) ∧
    (simulateFailures base maxA n).1.Pairwise (· ≤ ·) ∧
    (simulateFailures base maxA n).1.length = min n maxA := by
  have h := runBackoff_eq base maxA n 0
  simp only [Nat.sub_zero, Nat.zero_add] at h
  simp only [simulateFailures, h]
  refine ⟨?_, ?_, ?_, ?_⟩
  · intro hn
    have h1 : min n maxA = n := by omega
    have h2 : decide (maxA < n) = false := by simp; omega
    rw [h1, h2]
  · intro hn
    have h1 : min n maxA = maxA := by omega
    have h2 : decide (maxA < n) = true := by simp; omega
    rw [h1, h2]
  · refine List.Pairwise.map _ (fun a b hab => ?_) (List.pairwise_lt_range _)
    exact Nat.mul_le_mul (le_refl base) (by omega)
  · simp

/-- Claim C5 witness: the backoff theorem applied at the configured values
base delay 5 and max attempts 10, for 3 failures (three linear delays,
still running) and for 12 failures (ten delays, then Terminated). -/
theorem c5_backoff_policy_witness :
    simulateFailures 5 10 3 = ([5, 10, 15], false) ∧
    simulateFailures 5 10 12 = ([5, 10, 15, 20, 25, 30, 35, 40, 45, 50], true) := by
  have h3 := (c5_backoff_policy 5 10 3).1 (by norm_num)
  have h12 := (c5_backoff_policy 5 10 12).2.1 (by norm_num)
  rw [h3, h12]
  constructor <;> rfl

/-- Claim C2: a probed contract is classified as a token candidate if and
only if all four interface calls return values with name and symbol
non-empty strings, decimals an integer in [0, 18] and totalSupply a
positive integer; in particular any single call failure (such as a
contract logic revert) classifies the contract as non-token.  The two
conjuncts instantiate the spec examples: the all-calls-succeed probe with
name "Foo", symbol "FOO", decimals 18, totalSupply 10^21 is a token
candidate, and the same probe with a reverting totalSupply call is not. -/
theorem c2_probe_classification :
    (∀ p : ContractProbe,
      is_erc20_token p = true ↔
        ((∃ n, p.name = .ok (.vStr n) ∧ 0 < n.length) ∧
         (∃ s, p.symbol = .ok (.vStr s) ∧ 0 < s.length) ∧
         (∃ d, p.decimals = .ok (.vInt d) ∧ 0 ≤ d ∧ d ≤ 18) ∧
         (∃ t, p.totalSupply = .ok (.vInt t) ∧ 0 < t))) ∧
    is_erc20_token probeFoo = true ∧
    is_erc20_token probeRevert = false := by
  refine ⟨?_, by decide, by decide⟩
  intro p
  obtain ⟨cn, cs, cd, ct⟩ := p
  cases cn with
  | logicError => simp [is_erc20_token]
  | otherError => simp [is_erc20_token]
  | ok vn =>
    cases vn with
    | vInt m => simp [is_erc20_token]
    | vOther => simp [is_erc20_token]
    | vStr n =>
      cases cs with
      | logicError => simp [is_erc20_token]
      | otherError => simp [is_erc20_token]
      | ok vs =>
        cases vs with
        | vInt m => simp [is_erc20_token]
        | vOther => simp [is_erc20_token]
        | vStr s =>
          cases cd with
          | logicError => simp [is_erc20_token]
          | otherError => simp [is_erc20_token]
          | ok vd =>
            cases vd with
            | vStr u => simp [is_erc20_token]
            | vOther => simp [is_erc20_token]
            | vInt d =>
              cases ct with
              | logicError => simp [is_erc20_token]
              | otherError => simp [is_erc20_token]
              | ok vt =>
                cases vt with
                | vStr u => simp [is_erc20_token]
                | vOther => simp [is_erc20_token]
                | vInt t => simp [is_erc20_token, and_assoc]

/-- Claim C3: a scoring response is accepted only when its score lies in
[0, 10] and its confidence in [0, 1] (first conjunct: every accepted
analysis satisfies the bounds, so any response outside them is rejected);
a response whose recommendation is a string naming no recognized enum
value is not rejected for that reason but coerced to research (second
conjunct, for every such accepted response; third conjunct, a concrete
otherwise-valid response with recommendation "MOON" is accepted with
recommendation research). -/
theorem c3_response_validation :
    (∀ (c : Option AIResponseData) (a : AIAnalysisE),
      parse_ai_response c = some a →
        (0 ≤ a.score ∧ a.score ≤ 10) ∧ (0 ≤ a.confidence ∧ a.confidence ≤ 1)) ∧
    (∀ (d : AIResponseData) (a : AIAnalysisE) (rv : JVal) (s : String),
      d.recommendation = some rv → rv.asStr = some s →
      asciiLower s ≠ "buy" → asciiLower s ≠ "hold" → asciiLower s ≠ "avoid" →
      asciiLower s ≠ "research" →
      parse_ai_response (some d) = some a →
      a.recommendation = .research) ∧
    parse_ai_response (some goodResponseMoon) = some goodResponseMoonParsed := by
  refine ⟨?_, ?_, by decide⟩
  · intro c a h
    rcases c with _ | d
    · simp [parse_ai_response] at h
    · unfold parse_ai_response at h
      repeat' split at h
      all_goals simp_all
      all_goals
        obtain rfl := h
        simp_all
  · intro d a rv s hrec hstr hb hh ha hr h
    unfold parse_ai_response at h
    repeat' split at h
    all_goals simp_all
    obtain rfl := h
    simp_all [parseRecommendation]

/-- Claim C3 witness: the validation theorem applied to the concrete
accepted response `goodResponseMoon` (score 8, confidence 1,
recommendation "MOON"). -/
theorem c3_response_validation_witness :
    ((0 ≤ goodResponseMoonParsed.score ∧ goodResponseMoonParsed.score ≤ 10) ∧
      (0 ≤ goodResponseMoonParsed.confidence ∧ goodResponseMoonParsed.confidence ≤ 1)) ∧
    goodResponseMoonParsed.recommendation = .research := by
  refine ⟨c3_response_validation.1 (some goodResponseMoon) goodResponseMoonParsed
    c3_response_validation.2.2, ?_⟩
  exact c3_response_validation.2.1 goodResponseMoon goodResponseMoonParsed
    (.str "MOON") "MOON" rfl rfl (by decide) (by decide) (by decide) (by decide)
    c3_response_validation.2.2

/-- Helper: deleting a key removes it from the cache. -/
theorem cacheFind_erase_self (c : AnalysisCache) (key : String) :
    cacheFind (cacheErase c key) key = none := by
  induction c with
  | nil => rfl
  | cons e rest ih =>
    by_cases h : e.1 = key
    · simpa [cacheErase, List.filter_cons, h] using ih
    · simpa [cacheErase, List.filter_cons, h, cacheFind] using ih

/-- Helper: a freshly stored analysis is found under its key with its
insertion time (the oversize sweep keeps the fresh entry since its age is
zero and the TTL is positive). -/
theorem cacheFind_cache_analysis_self (c : AnalysisCache) (addr : String)
    (a : AIAnalysisE) (now ttl : ℚ) (h : 0 < ttl) :
    cacheFind (cache_analysis c addr a now ttl) addr.toLower = some (a, now) := by
  have hfresh : now - now < ttl := by simpa using h
  simp only [cache_analysis]
  split
  · simp [List.filter_cons, cacheFind, hfresh, h]
  · simp [cacheFind]

/-- Claim C4: starting from a cache not holding the address, a successful
first analyze call invokes the collaborator and completes; a second call
within the TTL completes from the cache without invoking the collaborator
and returns the same analysis; a second call once the TTL has elapsed
invokes the collaborator again, and (shown for a failing collaborator,
which stores nothing) the expired entry has been purged on access. -/
theorem c4_cache_correctness
    (c : AnalysisCache) (ttl : ℚ) (addr : String) (t0 t1 : ℚ)
    (d : AIResponseData) (a : AIAnalysisE) (api : Option (Option AIResponseData))
    (hfind : cacheFind c addr.toLower = none)
    (hpar : parse_ai_response (some d) = some a)
    (httl : 0 < ttl) :
    ((analyze_token c ttl addr t0 (some (some d))).status = .completed ∧
      (analyze_token c ttl addr t0 (some (some d))).called_api = true) ∧
    (t1 - t0 < ttl →
      (analyze_token (analyze_token c ttl addr t0 (some (some d))).cache
          ttl addr t1 api).status = .completed ∧
      (analyze_token (analyze_token c ttl addr t0 (some (some d))).cache
          ttl addr t1 api).called_api = false ∧
      (analyze_token (analyze_token c ttl addr t0 (some (some d))).cache
          ttl addr t1 api).ai_analysis = some a) ∧
    (ttl ≤ t1 - t0 →
      (analyze_token (analyze_token c ttl addr t0 (some (some d))).cache
          ttl addr t1 api).called_api = true ∧
      (api = none →
        cacheFind (analyze_token (analyze_token c ttl addr t0 (some (some d))).cache
            ttl addr t1 api).cache addr.toLower = none)) := by
  have hget0 : get_cached_analysis c ttl addr t0 = (none, c) := by
    simp only [get_cached_analysis, hfind]
  have hr0 : analyze_token c ttl addr t0 (some (some d))
      = { status := .completed, error_message := none, ai_analysis := some a,
          called_api := true, cache := cache_analysis c addr a t0 ttl } := by
    simp only [analyze_token, hget0, hpar]
  have hfind1 : cacheFind (analyze_token c ttl addr t0 (some (some d))).cache
      addr.toLower = some (a, t0) := by
    rw [hr0]
    exact cacheFind_cache_analysis_self c addr a t0 ttl httl
  refine ⟨by rw [hr0]; exact ⟨rfl, rfl⟩, ?_, ?_⟩
  · intro hlt
    set S := (analyze_token c ttl addr t0 (some (some d))).cache with hS
    have hget1 : get_cached_analysis S ttl addr t1 = (some a, S) := by
      simp only [get_cached_analysis, hfind1, if_pos hlt]
    constructor
    · simp only [analyze_token, hget1]
    constructor
    · simp only [analyze_token, hget1]
    · simp only [analyze_token, hget1]
  · intro hge
    have hnlt : ¬ (t1 - t0 < ttl) := not_lt.mpr hge
    set S := (analyze_token c ttl addr t0 (some (some d))).cache with hS
    have hget1 : get_cached_analysis S ttl addr t1
        = (none, cacheErase S addr.toLower) := by
      simp only [get_cached_analysis, hfind1, if_neg hnlt]
    constructor
    · rcases api with _ | content
      · simp only [analyze_token, hget1]
      · rcases hp : parse_ai_response content with _ | b <;>
          simp only [analyze_token, hget1, hp]
    · intro hnone
      subst hnone
      simp only [analyze_token, hget1]
      exact cacheFind_erase_self _ _

/-- Claim C4 witness: the cache theorem applied on an empty cache, TTL 300
seconds, the concrete accepted response, a repeat call 100 seconds later
(cache hit, collaborator not invoked) and a repeat call 900 seconds later
with a timing-out collaborator (invoked again, expired entry purged). -/
theorem c4_cache_correctness_witness :
    (analyze_token [] 300 "0xabc" 0 (some (some goodResponseMoon))).called_api = true ∧
    (analyze_token (analyze_token [] 300 "0xabc" 0 (some (some goodResponseMoon))).cache
        300 "0xabc" 100 none).called_api = false ∧
    (analyze_token (analyze_token [] 300 "0xabc" 0 (some (some goodResponseMoon))).cache
        300 "0xabc" 900 none).called_api = true := by
  have h1 := c4_cache_correctness [] 300 "0xabc" 0 100 goodResponseMoon
    goodResponseMoonParsed none rfl (by decide) (by norm_num)
  have h2 := c4_cache_correctness [] 300 "0xabc" 0 900 goodResponseMoon
    goodResponseMoonParsed none rfl (by decide) (by norm_num)
  exact ⟨h1.1.2, (h1.2.1 (by norm_num)).2.1, (h2.2.2 (by norm_num)).1⟩

/-- Claim C6: for a fresh candidate (no cache entry), a collaborator
timeout (None API result) or a malformed response yields a FAILED outcome
carrying a diagnostic message rather than an exception, the listener
dispatches no notification for it, and the cache is left unchanged (no
entry stored).  The embedding is a total function, so every such call
returns an outcome and subsequent candidates are processed
independently. -/
theorem c6_scoring_failure_isolated
    (c : AnalysisCache) (ttl : ℚ) (addr : String) (now : ℚ)
    (api : Option (Option AIResponseData)) (minScore : ℚ)
    (hfind : cacheFind c addr.toLower = none)
    (hfail : api = none ∨
      ∃ content, api = some content ∧ parse_ai_response content = none) :
    (analyze_token c ttl addr now api).status = .failed ∧
    (analyze_token c ttl addr now api).error_message.isSome = true ∧
    (analyze_token c ttl addr now api).cache = c ∧
    listener_sends_alert (analyze_token c ttl addr now api) minScore = false := by
  have hget : get_cached_analysis c ttl addr now = (none, c) := by
    simp only [get_cached_analysis, hfind]
  rcases hfail with rfl | ⟨content, rfl, hp⟩
  · simp only [analyze_token, hget]
    simp [listener_sends_alert]
  · simp only [analyze_token, hget, hp]
    simp [listener_sends_alert]

/-- Claim C6 witness: the failure-isolation theorem applied on an empty
cache with a timing-out collaborator and notification threshold 7. -/
theorem c6_scoring_failure_isolated_witness :
    (analyze_token [] 300 "0xabc" 0 none).status = .failed ∧
    (analyze_token [] 300 "0xabc" 0 none).cache = [] ∧
    listener_sends_alert (analyze_token [] 300 "0xabc" 0 none) 7 = false := by
  have h := c6_scoring_failure_isolated [] 300 "0xabc" 0 none 7 rfl (Or.inl rfl)
  exact ⟨h.1, h.2.2.1, h.2.2.2⟩

end CryptoSentinel
